import Mathlib

/-!
Verification of the GSCF Python client (`GSCFClient.py`).

The development shallowly embeds the module: the session object becomes an
explicit `SessionState` record threaded through every operation, the network
becomes an oracle function from requests to results, Python exceptions become
an `Except PyErr` return, and the JSON values exchanged with the server become
the inductive `Json`.  The `md5` and `base64` library calls that the module
makes are implemented concretely over byte lists (`Nat` values below 256) so
that the digest formulas stated in the specification are about the actual MD5
algorithm.
-/

set_option autoImplicit false

/-! ### Bytes, hex, UTF-8 -/

/-- UTF-8 encoding of a single code point, as bytes. -/
def utf8Bytes (n : Nat) : List Nat :=
  if n < 128 then [n]
  else if n < 2048 then [192 + n / 64, 128 + n % 64]
  else if n < 65536 then [224 + n / 4096, 128 + (n / 64) % 64, 128 + n % 64]
  else [240 + n / 262144, 128 + (n / 4096) % 64, 128 + (n / 64) % 64, 128 + n % 64]

/-- The UTF-8 bytes of a string (Python 2 str values in the client are byte
strings; ASCII inputs coincide). -/
def strBytes (s : String) : List Nat :=
  s.data.foldr (fun c acc => utf8Bytes c.toNat ++ acc) []

/-- Lower-case hex digit. -/
def hexDigit (n : Nat) : Char :=
  if n < 10 then Char.ofNat (48 + n) else Char.ofNat (97 + (n - 10))

/-- Two lower-case hex digits of a byte. -/
def byteHex (b : Nat) : String :=
  String.mk [hexDigit (b / 16), hexDigit (b % 16)]

/-- `count` little-endian bytes of `n`. -/
def leBytes (n : Nat) : Nat → List Nat
  | 0 => []
  | k + 1 => (n % 256) :: leBytes (n / 256) k

/-! ### MD5 (RFC 1321), on byte lists -/

def M32 : Nat := 4294967296

def add32 (a b : Nat) : Nat := (a + b) % M32

def not32 (x : Nat) : Nat := 4294967295 - x

def rotl32 (x s : Nat) : Nat := (((x <<< s) % M32) ||| (x >>> (32 - s))) % M32

def md5K : List Nat :=
  [0xd76aa478, 0xe8c7b756, 0x242070db, 0xc1bdceee,
   0xf57c0faf, 0x4787c62a, 0xa8304613, 0xfd469501,
   0x698098d8, 0x8b44f7af, 0xffff5bb1, 0x895cd7be,
   0x6b901122, 0xfd987193, 0xa679438e, 0x49b40821,
   0xf61e2562, 0xc040b340, 0x265e5a51, 0xe9b6c7aa,
   0xd62f105d, 0x02441453, 0xd8a1e681, 0xe7d3fbc8,
   0x21e1cde6, 0xc33707d6, 0xf4d50d87, 0x455a14ed,
   0xa9e3e905, 0xfcefa3f8, 0x676f02d9, 0x8d2a4c8a,
   0xfffa3942, 0x8771f681, 0x6d9d6122, 0xfde5380c,
   0xa4beea44, 0x4bdecfa9, 0xf6bb4b60, 0xbebfbc70,
   0x289b7ec6, 0xeaa127fa, 0xd4ef3085, 0x04881d05,
   0xd9d4d039, 0xe6db99e5, 0x1fa27cf8, 0xc4ac5665,
   0xf4292244, 0x432aff97, 0xab9423a7, 0xfc93a039,
   0x655b59c3, 0x8f0ccc92, 0xffeff47d, 0x85845dd1,
   0x6fa87e4f, 0xfe2ce6e0, 0xa3014314, 0x4e0811a1,
   0xf7537e82, 0xbd3af235, 0x2ad7d2bb, 0xeb86d391]

def md5S : List Nat :=
  [7, 12, 17, 22, 7, 12, 17, 22, 7, 12, 17, 22, 7, 12, 17, 22,
   5, 9, 14, 20, 5, 9, 14, 20, 5, 9, 14, 20, 5, 9, 14, 20,
   4, 11, 16, 23, 4, 11, 16, 23, 4, 11, 16, 23, 4, 11, 16, 23,
   6, 10, 15, 21, 6, 10, 15, 21, 6, 10, 15, 21, 6, 10, 15, 21]

/-- The round boolean function of MD5, by round index. -/
def md5F (i b c d : Nat) : Nat :=
  if i < 16 then (b &&& c) ||| (not32 b &&& d)
  else if i < 32 then (d &&& b) ||| (not32 d &&& c)
  else if i < 48 then (b ^^^ c) ^^^ d
  else c ^^^ (b ||| not32 d)

/-- The message-word schedule of MD5, by round index. -/
def md5G (i : Nat) : Nat :=
  if i < 16 then i
  else if i < 32 then (5 * i + 1) % 16
  else if i < 48 then (3 * i + 5) % 16
  else (7 * i) % 16

/-- MD5 padding: a 0x80 byte, zeros to 56 mod 64, then the bit length as eight
little-endian bytes. -/
def md5Pad (msg : List Nat) : List Nat :=
  let len := msg.length
  let k := (56 + 64 - (len + 1) % 64) % 64
  msg ++ [128] ++ List.replicate k 0 ++ leBytes ((8 * len) % (2 ^ 64)) 8

/-- Four little-endian bytes at a time into 32-bit words. -/
def toWords : List Nat → List Nat
  | a :: b :: c :: d :: rest => (a + 256 * b + 65536 * c + 16777216 * d) :: toWords rest
  | _ => []

/-- Split into 64-byte blocks; the fuel argument makes the recursion
structural (the padded message has at most `fuel` blocks when called with the
message length). -/
def md5Blocks : Nat → List Nat → List (List Nat)
  | 0, _ => []
  | _ + 1, [] => []
  | f + 1, x :: xs => ((x :: xs).take 64) :: md5Blocks f ((x :: xs).drop 64)

/-- One MD5 round applied to the register quadruple. -/
def md5Round (w : List Nat) (st : Nat × Nat × Nat × Nat) (i : Nat) : Nat × Nat × Nat × Nat :=
  let a := st.1
  let b := st.2.1
  let c := st.2.2.1
  let d := st.2.2.2
  let tmp := add32 (add32 (add32 a (md5F i b c d)) (md5K.getD i 0)) (w.getD (md5G i) 0)
  (d, add32 b (rotl32 tmp (md5S.getD i 0)), b, c)

/-- Process one 64-byte block into the running state. -/
def md5ProcessBlock (st : Nat × Nat × Nat × Nat) (block : List Nat) : Nat × Nat × Nat × Nat :=
  let w := toWords block
  let r := (List.range 64).foldl (md5Round w) st
  (add32 st.1 r.1, add32 st.2.1 r.2.1, add32 st.2.2.1 r.2.2.1, add32 st.2.2.2 r.2.2.2)

/-- The hexadecimal MD5 digest of a byte list, as `md5.md5(x).hexdigest()`
produces it. -/
def md5hexBytes (msg : List Nat) : String :=
  let padded := md5Pad msg
  let h := (md5Blocks padded.length padded).foldl md5ProcessBlock
    (0x67452301, 0xefcdab89, 0x98badcfe, 0x10325476)
  String.join ((leBytes h.1 4 ++ leBytes h.2.1 4 ++ leBytes h.2.2.1 4 ++ leBytes h.2.2.2 4).map byteHex)

/-- Hexadecimal MD5 digest of a string. -/
def md5hex (s : String) : String := md5hexBytes (strBytes s)

/-! ### Base64, as `base64.encodestring(s)[:-1]` produces it -/

/-- The base64 alphabet. -/
def b64Digit (n : Nat) : Char :=
  if n < 26 then Char.ofNat (65 + n)
  else if n < 52 then Char.ofNat (97 + (n - 26))
  else if n < 62 then Char.ofNat (48 + (n - 52))
  else if n = 62 then Char.ofNat 43
  else Char.ofNat 47

/-- Base64-encode a byte list, with `=` padding. -/
def b64EncodeGroups : List Nat → List Char
  | [] => []
  | [a] => [b64Digit (a / 4), b64Digit ((a % 4) * 16), Char.ofNat 61, Char.ofNat 61]
  | [a, b] => [b64Digit (a / 4), b64Digit ((a % 4) * 16 + b / 16),
               b64Digit ((b % 16) * 4), Char.ofNat 61]
  | a :: b :: c :: rest =>
      b64Digit (a / 4) :: b64Digit ((a % 4) * 16 + b / 16) ::
      b64Digit ((b % 16) * 4 + c / 64) :: b64Digit (c % 64) :: b64EncodeGroups rest

/-- Split into the 57-byte chunks that `base64.encodestring` encodes per
output line; fuel as in `md5Blocks`. -/
def b64Chunks : Nat → List Nat → List (List Nat)
  | 0, _ => []
  | _ + 1, [] => []
  | f + 1, x :: xs => ((x :: xs).take 57) :: b64Chunks f ((x :: xs).drop 57)

/-- `base64.encodestring(s)[:-1]`: each 57-byte input chunk becomes one base64
line; the lines are joined by newlines (the slice removes only the final
newline). -/
def encodestringStripped (s : String) : String :=
  let bs := strBytes s
  String.intercalate "\n" ((b64Chunks bs.length bs).map (fun ch => String.mk (b64EncodeGroups ch)))

/-! ### JSON values and Python exceptions -/

/-- JSON values, as `json.loads` yields them (numbers in the payloads the
client handles are integers). -/
inductive Json where
  | null : Json
  | bool : Bool → Json
  | num : Int → Json
  | str : String → Json
  | arr : List Json → Json
  | obj : List (String × Json) → Json

/-- The Python exceptions the module can raise. -/
inductive PyErr where
  | httpError : Nat → PyErr
  | valueError : PyErr
  | keyError : String → PyErr
  | typeError : PyErr
  | attributeError : PyErr
  | importError : PyErr

/-- Python subscripting `j[k]` on a JSON value: a key lookup on a dict,
`KeyError` when the key is absent, `TypeError` on a non-dict. -/
def jsonGetItem (j : Json) (k : String) : Except PyErr Json :=
  match j with
  | .obj kvs =>
    match kvs.find? (fun p => p.1 == k) with
    | some p => .ok p.2
    | none => .error (.keyError k)
  | _ => .error .typeError

/-- Python iteration over a value, as `list.__iadd__` consumes it: a list
yields its elements, a dict yields its keys, a string yields its one-character
substrings, anything else raises `TypeError`. -/
def iterElems : Json → Except PyErr (List Json)
  | .arr xs => .ok xs
  | .obj kvs => .ok (kvs.map (fun p => Json.str p.1))
  | .str s => .ok (s.data.map (fun c => Json.str (String.mk [c])))
  | _ => .error .typeError

/-! ### Python dict operations on the request arguments

The request body built by `Session.__call__` is a Python dict; it is embedded
as an association list in insertion order, with `dictSet` the semantics of
assigning one key and `dictUpdate` the semantics of `dict.update`. -/

/-- Assignment `d[k] = v` on a dict: replaces the value in place when the key
is present, appends the pair otherwise. -/
def dictSet (d : List (String × String)) (k v : String) : List (String × String) :=
  if d.any (fun p => p.1 == k) then
    d.map (fun p => if p.1 == k then (k, v) else p)
  else
    d ++ [(k, v)]

/-- `d.update(o)`: assign every entry of `o` into `d`, in order. -/
def dictUpdate (d o : List (String × String)) : List (String × String) :=
  o.foldl (fun d p => dictSet d p.1 p.2) d

/-- First-match lookup on a dict, the value Python reads for a key. -/
def dictLookup (d : List (String × String)) (k : String) : Option String :=
  (d.find? (fun p => p.1 == k)).map Prod.snd

/-! ### The session state and the network oracle -/

/-- The attributes of a `Session` object once `__init__` has finished. -/
structure SessionState where
  user : String
  passwd : String
  apikey : String
  baseURL : String
  dataframe : Bool
  deviceID : String
  sequence : Int
  token : String

/-- A POST request issued by the dispatcher: target URL and the url-encoded
form fields of the body (kept as the key-value mapping that
`urllib.urlencode` serialises). -/
structure Request where
  url : String
  body : List (String × String)

/-- What the network does with one request: a non-2xx HTTP status, a 2xx
response whose body `json.loads` rejects, or a decoded JSON body. -/
inductive NetResult where
  | httpError : Nat → NetResult
  | badJson : NetResult
  | ok : Json → NetResult

/-- The authentication request of `Session.authenticate`: URL, the Basic
authorization header, and the raw body string. -/
structure AuthRequest where
  url : String
  authorization : String
  body : String

/-! ### `Session.__call__`, the dispatcher -/

/-- The state mutation and request construction of `Session.__call__`:
increment `sequence`, derive the validation digest from the token, the new
sequence rendered as text, and the API key, and build the body dict from the
two reserved keys updated with the caller options. -/
def callS (s : SessionState) (action : String) (options : List (String × String)) :
    SessionState × Request :=
  let s' := { s with sequence := s.sequence + 1 }
  let validation := md5hex (s'.token ++ toString s'.sequence ++ s'.apikey)
  let query_args := dictUpdate [("deviceID", s'.deviceID), ("validation", validation)] options
  (s', { url := s'.baseURL ++ action, body := query_args })

/-- `Session.__call__`: the dispatcher. The returned state reflects the
in-place mutation of `self.sequence`; the request is handed to the network
oracle, whose failure becomes the raised exception. -/
def call (net : Request → NetResult) (s : SessionState) (action : String)
    (options : List (String × String)) : SessionState × Request × Except PyErr Json :=
  let p := callS s action options
  match net p.2 with
  | .httpError c => (p.1, p.2, .error (.httpError c))
  | .badJson => (p.1, p.2, .error .valueError)
  | .ok j => (p.1, p.2, .ok j)

/-- `Session.__call__` with the caller-visible value of the `options` dict
after the call also returned.  The only dict mutation in the body,
`query_args.update(options)`, has the fresh `query_args` dict as receiver and
only reads `options`, so the mapping the caller passed is returned as it was
received. -/
def callTracked (net : Request → NetResult) (s : SessionState) (action : String)
    (options : List (String × String)) :
    SessionState × List (String × String) × Request × Except PyErr Json :=
  let r := call net s action options
  (r.1, options, r.2.1, r.2.2)

/-! ### `Session.authenticate` and `Session.__init__` -/

/-- The fixed application string of `__init__`. -/
def base_string : String := "GSCF database Python API"

/-- The request `Session.authenticate` issues. -/
def authRequest (user passwd baseURL deviceID : String) : AuthRequest :=
  { url := baseURL ++ "authenticate",
    authorization := "Basic " ++ encodestringStripped (user ++ ":" ++ passwd),
    body := "deviceID=" ++ deviceID }

/-- `Session.authenticate`: one POST to the authenticate endpoint; on a JSON
response the `sequence` and `token` fields are extracted (`sequence` first, as
in the source; each must be present, and their uses in the dispatcher require
the integer and string shapes). -/
def authenticate (authNet : AuthRequest → NetResult) (user passwd baseURL deviceID : String) :
    Except PyErr (Int × String) :=
  match authNet (authRequest user passwd baseURL deviceID) with
  | .httpError c => .error (.httpError c)
  | .badJson => .error .valueError
  | .ok j =>
    match jsonGetItem j "sequence" with
    | .error e => .error e
    | .ok (.num n) =>
      match jsonGetItem j "token" with
      | .error e => .error e
      | .ok (.str t) => .ok (n, t)
      | .ok _ => .error .typeError
    | .ok _ => .error .typeError

/-- `Session.__init__`: store the credentials, derive `deviceID` from the MAC
address rendered as decimal text, the fixed string and the username,
authenticate, and finally import pandas when a dataframe was requested,
raising `ImportError` when the library is absent.  The MAC address and the
availability of pandas are ambient facts of the host, passed explicitly. -/
def sessionInit (authNet : AuthRequest → NetResult) (mac : Nat)
    (username password api_key baseurl : String) (dataframe : Bool)
    (pandasAvailable : Bool) : Except PyErr SessionState :=
  let deviceID := md5hex (toString mac ++ base_string ++ username)
  match authenticate authNet username password baseurl deviceID with
  | .error e => .error e
  | .ok st =>
    if dataframe ∧ ¬ pandasAvailable then .error .importError
    else .ok { user := username, passwd := password, apikey := api_key,
               baseURL := baseurl, dataframe := dataframe, deviceID := deviceID,
               sequence := st.1, token := st.2 }

/-! ### The derived read operations -/

/-- The result a derived read operation hands back to the caller: the JSON
list when `dataframe` is off, or the table built by the pandas backend.  The
backend is an external collaborator, so the table value records the row
sequence handed to `to_dataframe`. -/
inductive OpResult where
  | jsonList : List Json → OpResult
  | frame : List Json → OpResult

/-- `Session.to_dataframe`: hands the rows to
`pandas.DataFrame(data).set_index('token')`; the pandas computation itself is
outside the embedded module, so the constructor records its input. -/
def to_dataframe (rows : List Json) : OpResult := .frame rows

/-- One iteration of the body of a per-token loop,
`res += self(action, ... token ...)[resKey]`: dispatch, subscript the decoded
response, and iterate the extracted value into a list of new elements. -/
def fetchStep (net : Request → NetResult) (action optKey resKey : String)
    (s : SessionState) (t : String) : SessionState × Request × Except PyErr (List Json) :=
  let r := call net s action [(optKey, t)]
  (r.1, r.2.1, r.2.2.bind (fun j => (jsonGetItem j resKey).bind iterElems))

/-- The `res = []; for token in tokens: res += ...` loop shared by the four
per-token operations, with the accumulated list, the issued requests and the
final state made explicit.  The first raised exception aborts the loop, after
the increments of the attempted dispatches have already happened. -/
def fetchLoop (net : Request → NetResult) (action optKey resKey : String) :
    SessionState → List Json → List String →
    SessionState × List Request × Except PyErr (List Json)
  | s, res, [] => (s, [], .ok res)
  | s, res, t :: ts =>
    match fetchStep net action optKey resKey s t with
    | (s', req, .error e) => (s', [req], .error e)
    | (s', req, .ok xs) =>
      let r := fetchLoop net action optKey resKey s' (res ++ xs) ts
      (r.1, req :: r.2.1, r.2.2)

/-- `Session.getSubjectsForStudy`: one dispatch per study token, the
`subjects` lists accumulated in order, then the optional tabular reshape. -/
def getSubjectsForStudy (net : Request → NetResult) (s : SessionState)
    (study_token : List String) : SessionState × List Request × Except PyErr OpResult :=
  let r := fetchLoop net "getSubjectsForStudy" "studyToken" "subjects" s [] study_token
  match r.2.2 with
  | .error e => (r.1, r.2.1, .error e)
  | .ok res => (r.1, r.2.1, .ok (if r.1.dataframe then to_dataframe res else .jsonList res))

/-- `Session.getAssaysForStudy`: as `getSubjectsForStudy`, over `assays`. -/
def getAssaysForStudy (net : Request → NetResult) (s : SessionState)
    (study_token : List String) : SessionState × List Request × Except PyErr OpResult :=
  let r := fetchLoop net "getAssaysForStudy" "studyToken" "assays" s [] study_token
  match r.2.2 with
  | .error e => (r.1, r.2.1, .error e)
  | .ok res => (r.1, r.2.1, .ok (if r.1.dataframe then to_dataframe res else .jsonList res))

/-- `Session.getSamplesForAssay`: as `getSubjectsForStudy`, over `samples`. -/
def getSamplesForAssay (net : Request → NetResult) (s : SessionState)
    (assay_token : List String) : SessionState × List Request × Except PyErr OpResult :=
  let r := fetchLoop net "getSamplesForAssay" "assayToken" "samples" s [] assay_token
  match r.2.2 with
  | .error e => (r.1, r.2.1, .error e)
  | .ok res => (r.1, r.2.1, .ok (if r.1.dataframe then to_dataframe res else .jsonList res))

/-- `Session.getMeasurementDataForAssay`: the loop accumulates
`res += self(...)["measurements"]` — since each `measurements` value is a
dict, the list extension appends its keys.  In the dataframe branch the
source then evaluates `res.iteritems()` where `res` is that Python list, and
a Python 2 list has no attribute `iteritems`, so the branch raises
`AttributeError` before any row is built. -/
def getMeasurementDataForAssay (net : Request → NetResult) (s : SessionState)
    (assay_token : List String) : SessionState × List Request × Except PyErr OpResult :=
  let r := fetchLoop net "getMeasurementDataForAssay" "assayToken" "measurements" s [] assay_token
  match r.2.2 with
  | .error e => (r.1, r.2.1, .error e)
  | .ok res =>
    if r.1.dataframe then (r.1, r.2.1, .error .attributeError)
    else (r.1, r.2.1, .ok (.jsonList res))

/-- A run of successive dispatcher calls, each given by an action and an
options mapping, tracking only the session state. -/
def iterCalls (net : Request → NetResult) : SessionState →
    List (String × List (String × String)) → SessionState
  | s, [] => s
  | s, c :: cs => iterCalls net (call net s c.1 c.2).1 cs

/-! ### Helper lemmas about the dict operations -/

/-- Reading the assigned key after `d[k] = v` yields `v`. -/
theorem dictLookup_dictSet_self (d : List (String × String)) (k v : String) :
    dictLookup (dictSet d k v) k = some v := by
  induction d with
  | nil => simp [dictSet, dictLookup]
  | cons p d ih =>
    by_cases hp : p.1 = k
    · simp [dictSet, dictLookup, hp]
    · by_cases hd : d.any (fun q => q.1 == k) = true
      · simpa [dictSet, dictLookup, hp, hd] using ih
      · simpa [dictSet, dictLookup, hp, hd] using ih

/-- Reading a dict with one more entry in front. -/
theorem dictLookup_cons (q : String × String) (d : List (String × String)) (k : String) :
    dictLookup (q :: d) k = if q.1 = k then some q.2 else dictLookup d k := by
  by_cases h : q.1 = k
  · simp [dictLookup, h]
  · simp [dictLookup, h]

/-- In-place reassignment of one key does not change reads of other keys. -/
theorem dictLookup_map_assign_ne (d : List (String × String)) (k2 v k : String)
    (hk : k ≠ k2) :
    dictLookup (d.map (fun p => if p.1 == k2 then (k2, v) else p)) k = dictLookup d k := by
  induction d with
  | nil => rfl
  | cons p d ih =>
    by_cases hp2 : p.1 = k2
    · have hhead : (if p.1 == k2 then (k2, v) else p) = (k2, v) := by simp [hp2]
      have hpk : ¬ p.1 = k := by rw [hp2]; exact Ne.symm hk
      rw [List.map_cons, hhead, dictLookup_cons, dictLookup_cons,
        if_neg (Ne.symm hk), if_neg hpk]
      exact ih
    · have hhead : (if p.1 == k2 then (k2, v) else p) = p := by simp [hp2]
      rw [List.map_cons, hhead, dictLookup_cons, dictLookup_cons]
      by_cases hp : p.1 = k
      · rw [if_pos hp, if_pos hp]
      · rw [if_neg hp, if_neg hp]
        exact ih

/-- `d[k2] = v` does not change reads of a key other than `k2`. -/
theorem dictLookup_dictSet_ne (d : List (String × String)) (k2 v k : String)
    (hk : k ≠ k2) :
    dictLookup (dictSet d k2 v) k = dictLookup d k := by
  by_cases hd : d.any (fun p => p.1 == k2) = true
  · simpa [dictSet, hd] using dictLookup_map_assign_ne d k2 v k hk
  · simp [dictSet, hd, dictLookup, List.find?_append, Ne.symm hk]

/-- `d.update(o)` does not change reads of keys that `o` does not mention. -/
theorem dictLookup_dictUpdate_not_mem (d o : List (String × String)) (k : String)
    (h : k ∉ o.map Prod.fst) :
    dictLookup (dictUpdate d o) k = dictLookup d k := by
  induction o generalizing d with
  | nil => rfl
  | cons p o ih =>
    simp only [List.map_cons, List.mem_cons, not_or] at h
    have step : dictUpdate d (p :: o) = dictUpdate (dictSet d p.1 p.2) o := rfl
    rw [step, ih _ h.2, dictLookup_dictSet_ne _ _ _ _ h.1]

/-- After `d.update(o)`, every key that `o` assigns reads the value `o` gave
it (for a duplicate-free `o`, as a Python dict is). -/
theorem dictLookup_dictUpdate_mem (d o : List (String × String)) (k v : String)
    (hnd : (o.map Prod.fst).Nodup) (h : dictLookup o k = some v) :
    dictLookup (dictUpdate d o) k = some v := by
  induction o generalizing d with
  | nil => simp [dictLookup] at h
  | cons p o ih =>
    simp only [List.map_cons, List.nodup_cons] at hnd
    have step : dictUpdate d (p :: o) = dictUpdate (dictSet d p.1 p.2) o := rfl
    by_cases hp : p.1 = k
    · have hv : p.2 = v := by
        simpa [dictLookup, hp] using h
      have hnotin : k ∉ o.map Prod.fst := by
        rw [← hp]; exact hnd.1
      rw [step, dictLookup_dictUpdate_not_mem _ _ _ hnotin, hp, hv,
        dictLookup_dictSet_self]
    · have h' : dictLookup o k = some v := by
        simpa [dictLookup, hp] using h
      rw [step]
      exact ih (dictSet d p.1 p.2) hnd.2 h'

/-! ### Helper lemmas about the dispatcher and the loops -/

/-- The dispatcher mutates exactly one attribute: `sequence`, by one. -/
theorem call_state (net : Request → NetResult) (s : SessionState) (action : String)
    (o : List (String × String)) :
    (call net s action o).1 = { s with sequence := s.sequence + 1 } := by
  unfold call
  dsimp only
  split <;> rfl

/-- The request the dispatcher hands to the network is the one `callS`
builds. -/
theorem call_req (net : Request → NetResult) (s : SessionState) (action : String)
    (o : List (String × String)) :
    (call net s action o).2.1 = (callS s action o).2 := by
  unfold call
  dsimp only
  split <;> rfl

/-- A run of dispatcher calls only advances `sequence`, by one per call. -/
theorem iterCalls_state (net : Request → NetResult) :
    ∀ (cs : List (String × List (String × String))) (s : SessionState),
    iterCalls net s cs = { s with sequence := s.sequence + cs.length } := by
  intro cs
  induction cs with
  | nil =>
    intro s
    simp [iterCalls]
  | cons c cs ih =>
    intro s
    rw [show iterCalls net s (c :: cs) = iterCalls net (call net s c.1 c.2).1 cs from rfl,
      ih, call_state]
    simp [SessionState.mk.injEq]
    omega

/-- One loop iteration advances `sequence` by one, whatever the network
did. -/
theorem fetchStep_state (net : Request → NetResult) (action optKey resKey : String)
    (s : SessionState) (t : String) :
    (fetchStep net action optKey resKey s t).1 = { s with sequence := s.sequence + 1 } := by
  rw [show (fetchStep net action optKey resKey s t).1
      = (call net s action [(optKey, t)]).1 from rfl, call_state]

/-- A per-token loop leaves every attribute unchanged except `sequence`,
which advances by exactly one per request issued — also when the loop is
aborted by an exception. -/
theorem fetchLoop_state (net : Request → NetResult) (action optKey resKey : String) :
    ∀ (ts : List String) (s : SessionState) (res : List Json),
    (fetchLoop net action optKey resKey s res ts).1
      = { s with sequence := s.sequence
            + ((fetchLoop net action optKey resKey s res ts).2.1.length : Int) } := by
  intro ts
  induction ts with
  | nil =>
    intro s res
    simp [fetchLoop]
  | cons t ts ih =>
    intro s res
    rcases hstep : fetchStep net action optKey resKey s t with ⟨s', req, r⟩
    have hs' : s' = { s with sequence := s.sequence + 1 } := by
      have := fetchStep_state net action optKey resKey s t
      rw [hstep] at this
      exact this
    cases r with
    | error e =>
      simp [fetchLoop, hstep, hs', SessionState.mk.injEq]
    | ok xs =>
      simp only [fetchLoop, hstep]
      rw [ih s' (res ++ xs), hs']
      simp [SessionState.mk.injEq]
      omega

/-- Prepending an accumulator to a successful loop result. -/
def withAcc (res : List Json) : Except PyErr (List Json) → Except PyErr (List Json)
  | .error e => .error e
  | .ok xs => .ok (res ++ xs)

theorem withAcc_nil (r : Except PyErr (List Json)) : withAcc [] r = r := by
  cases r <;> simp [withAcc]

theorem withAcc_withAcc (a b : List Json) (r : Except PyErr (List Json)) :
    withAcc a (withAcc b r) = withAcc (a ++ b) r := by
  cases r <;> simp [withAcc]

/-- The accumulator of the per-token loop only prefixes the successful
result; the state and the issued requests do not depend on it. -/
theorem fetchLoop_acc (net : Request → NetResult) (action optKey resKey : String) :
    ∀ (ts : List String) (s : SessionState) (res : List Json),
    fetchLoop net action optKey resKey s res ts
      = ((fetchLoop net action optKey resKey s [] ts).1,
         (fetchLoop net action optKey resKey s [] ts).2.1,
         withAcc res (fetchLoop net action optKey resKey s [] ts).2.2) := by
  intro ts
  induction ts with
  | nil =>
    intro s res
    simp [fetchLoop, withAcc]
  | cons t ts ih =>
    intro s res
    rcases hstep : fetchStep net action optKey resKey s t with ⟨s', req, r⟩
    cases r with
    | error e =>
      simp [fetchLoop, hstep, withAcc]
    | ok xs =>
      simp only [fetchLoop, hstep]
      rw [ih s' (res ++ xs), ih s' ([] ++ xs)]
      simp only [List.nil_append]
      cases hrest : (fetchLoop net action optKey resKey s' [] ts).2.2 with
      | error e => simp [withAcc, hrest]
      | ok ys => simp [withAcc, hrest, List.append_assoc]

/-- Splitting a per-token loop after a successful prefix: the remaining
tokens run from the reached state, the requests and the extracted lists
concatenate. -/
theorem fetchLoop_append (net : Request → NetResult) (action optKey resKey : String) :
    ∀ (ts1 ts2 : List String) (s s1 : SessionState) (tr1 : List Request) (xs : List Json),
    fetchLoop net action optKey resKey s [] ts1 = (s1, tr1, .ok xs) →
    fetchLoop net action optKey resKey s [] (ts1 ++ ts2)
      = ((fetchLoop net action optKey resKey s1 [] ts2).1,
         tr1 ++ (fetchLoop net action optKey resKey s1 [] ts2).2.1,
         withAcc xs (fetchLoop net action optKey resKey s1 [] ts2).2.2) := by
  intro ts1
  induction ts1 with
  | nil =>
    intro ts2 s s1 tr1 xs h
    simp only [fetchLoop, Prod.mk.injEq] at h
    obtain ⟨hs, htr, hx⟩ := h
    injection hx with hx
    subst hs htr hx
    simp only [List.nil_append, withAcc_nil]
  | cons t ts1 ih =>
    intro ts2 s s1 tr1 xs h
    rcases hstep : fetchStep net action optKey resKey s t with ⟨s', req, r⟩
    cases r with
    | error e =>
      simp only [fetchLoop, hstep, Prod.mk.injEq] at h
      exact absurd h.2.2 (by simp)
    | ok ys =>
      simp only [fetchLoop, hstep, List.nil_append] at h
      rw [fetchLoop_acc net action optKey resKey ts1 s' ys] at h
      simp only [Prod.mk.injEq] at h
      obtain ⟨hs1, htr, hres⟩ := h
      cases hF : (fetchLoop net action optKey resKey s' [] ts1).2.2 with
      | error e =>
        rw [hF] at hres
        simp [withAcc] at hres
      | ok zs =>
        rw [hF] at hres
        simp only [withAcc] at hres
        injection hres with hres
        have h' : fetchLoop net action optKey resKey s' [] ts1
            = ((fetchLoop net action optKey resKey s' [] ts1).1,
               (fetchLoop net action optKey resKey s' [] ts1).2.1, Except.ok zs) := by
          rw [← hF]
        have ihs := ih ts2 s' _ _ zs h'
        subst hs1 htr
        subst hres
        simp only [List.cons_append, fetchLoop, hstep, List.nil_append, List.append_eq]
        rw [fetchLoop_acc net action optKey resKey (ts1 ++ ts2) s' ys, ihs]
        simp only [withAcc_withAcc, List.cons_append]

/-- Inversion of a successful construction: the session object a successful
`__init__` produces is fully determined by the inputs and the two fields of
the authentication response. -/
theorem sessionInit_ok (authNet : AuthRequest → NetResult) (mac : Nat)
    (u p k b : String) (df pa : Bool) (j : Json) (n : Int) (t : String) (st : SessionState)
    (h1 : authNet (authRequest u p b (md5hex (toString mac ++ base_string ++ u))) = .ok j)
    (h2 : jsonGetItem j "sequence" = .ok (.num n))
    (h3 : jsonGetItem j "token" = .ok (.str t))
    (h4 : sessionInit authNet mac u p k b df pa = .ok st) :
    st = { user := u, passwd := p, apikey := k, baseURL := b, dataframe := df,
           deviceID := md5hex (toString mac ++ base_string ++ u),
           sequence := n, token := t } := by
  simp only [sessionInit, authenticate, h1, h2, h3] at h4
  split at h4
  · exact absurd h4 (by simp)
  · exact (Except.ok.inj h4).symm

/-- A successful construction always carries the derived device
identifier, whatever the authentication exchange returned. -/
theorem sessionInit_ok_deviceID (authNet : AuthRequest → NetResult) (mac : Nat)
    (u p k b : String) (df pa : Bool) (st : SessionState)
    (h : sessionInit authNet mac u p k b df pa = .ok st) :
    st.deviceID = md5hex (toString mac ++ base_string ++ u) := by
  simp only [sessionInit] at h
  split at h
  · simp at h
  · split at h
    · simp at h
    · rw [← Except.ok.inj h]

/-- A successful one-token loop issued exactly one request. -/
theorem fetchLoop_single_ok (net : Request → NetResult) (action optKey resKey : String)
    (t : String) (s s1 : SessionState) (tr : List Request) (xs : List Json)
    (h : fetchLoop net action optKey resKey s [] [t] = (s1, tr, .ok xs)) :
    ∃ req, tr = [req] := by
  rcases hstep : fetchStep net action optKey resKey s t with ⟨s', req, r⟩
  cases r with
  | error e =>
    simp only [fetchLoop, hstep, Prod.mk.injEq] at h
    exact absurd h.2.2 (by simp)
  | ok ys =>
    exact ⟨req, by
      simp only [fetchLoop, hstep, List.nil_append, Prod.mk.injEq] at h
      exact h.2.1.symm⟩

/-- Inversion of a successful one-token `getSubjectsForStudy` that returned
the JSON list: the dataframe flag is off, the underlying loop produced that
list, and exactly one request was dispatched. -/
theorem getSubjectsForStudy_single_ok (net : Request → NetResult) (s : SessionState)
    (a : String) (s1 : SessionState) (tr : List Request) (xs : List Json)
    (h : getSubjectsForStudy net s [a] = (s1, tr, .ok (.jsonList xs))) :
    s.dataframe = false ∧
    fetchLoop net "getSubjectsForStudy" "studyToken" "subjects" s [] [a] = (s1, tr, .ok xs) ∧
    tr.length = 1 := by
  rcases hF : fetchLoop net "getSubjectsForStudy" "studyToken" "subjects" s [] [a]
    with ⟨sF, trF, rF⟩
  have hsF : sF = { s with sequence := s.sequence + (trF.length : Int) } := by
    have hst := fetchLoop_state net "getSubjectsForStudy" "studyToken" "subjects" [a] s []
    rw [hF] at hst
    exact hst
  cases rF with
  | error e =>
    simp only [getSubjectsForStudy, hF, Prod.mk.injEq] at h
    exact absurd h.2.2 (by simp)
  | ok res =>
    simp only [getSubjectsForStudy, hF, Prod.mk.injEq] at h
    obtain ⟨hs1, htr, hr⟩ := h
    by_cases hdf : s.dataframe
    · rw [hsF] at hr
      simp [to_dataframe, hdf] at hr
    · have hdf' : s.dataframe = false := by simpa using hdf
      rw [hsF] at hr
      simp only [hdf', to_dataframe, if_false] at hr
      injection hr with hr
      injection hr with hr
      refine ⟨hdf', ?_, ?_⟩
      · rw [hs1, htr, hr]
      · have hlen := fetchLoop_single_ok net "getSubjectsForStudy" "studyToken" "subjects"
          a s sF trF res (by rw [hF])
        obtain ⟨req, hreq⟩ := hlen
        rw [← htr, hreq]
        rfl

/-! ### Concrete fixtures for witnesses and counterexamples -/

/-- A concrete post-authentication session state with the dataframe output
disabled. -/
def sampleState : SessionState :=
  { user := "u", passwd := "p", apikey := "K", baseURL := "http://x/",
    dataframe := false, deviceID := "D", sequence := 10, token := "T" }

/-- The same state with the dataframe output enabled. -/
def sampleStateDF : SessionState :=
  { user := "u", passwd := "p", apikey := "K", baseURL := "http://x/",
    dataframe := true, deviceID := "D", sequence := 10, token := "T" }

/-- A network that always reports a server error. -/
def failNet : Request → NetResult := fun _ => .httpError 500

/-- One subject record. -/
def subjRow : Json := .obj [("token", .str "s1"), ("x", .num 1)]

/-- A network that always returns one subject. -/
def subjectsNet : Request → NetResult :=
  fun _ => .ok (.obj [("subjects", .arr [subjRow])])

/-- A network that always returns the measurements payload of the
specification example: a mapping from token to field-mapping. -/
def measurementsNet : Request → NetResult :=
  fun _ => .ok (.obj [("measurements",
    .obj [("tok1", .obj [("x", .num 1), ("y", .num 2)]),
          ("tok2", .obj [("x", .num 3), ("y", .num 4)])])])

/-- The authentication response body used in the witnesses. -/
def authOkJson : Json := .obj [("sequence", .num 10), ("token", .str "T")]

/-- An authentication endpoint that always accepts. -/
def authOkNet : AuthRequest → NetResult := fun _ => .ok authOkJson

/-- The session state a successful construction against `authOkNet`
produces. -/
def sampleAuthState : SessionState :=
  { user := "u", passwd := "p", apikey := "K", baseURL := "http://x/",
    dataframe := false, deviceID := md5hex (toString 0 ++ base_string ++ "u"),
    sequence := 10, token := "T" }

/-! ### The claims -/

/-- Claim C1: for every dispatcher invocation whose options do not shadow the
reserved key, the validation credential in the request body is the
hexadecimal MD5 digest of the session token, the decimal text of the
incremented sequence, and the API key, concatenated. -/
theorem c1_validation_credential (net : Request → NetResult) (s : SessionState)
    (action : String) (o : List (String × String))
    (h : "validation" ∉ o.map Prod.fst) :
    dictLookup (call net s action o).2.1.body "validation"
      = some (md5hex (s.token ++ toString (s.sequence + 1) ++ s.apikey)) := by
  rw [call_req]
  show dictLookup (dictUpdate [("deviceID", s.deviceID), ("validation",
      md5hex (s.token ++ toString (s.sequence + 1) ++ s.apikey))] o) "validation" = _
  rw [dictLookup_dictUpdate_not_mem _ _ _ h]
  rfl

/-- Witness for C1 at a concrete state and option list. -/
theorem c1_validation_credential_witness :
    ("validation" ∉ ([("studyToken", "A")] : List (String × String)).map Prod.fst) ∧
    dictLookup (call failNet sampleState "getSubjectsForStudy"
        [("studyToken", "A")]).2.1.body "validation"
      = some (md5hex (sampleState.token ++ toString (sampleState.sequence + 1)
          ++ sampleState.apikey)) :=
  ⟨by decide, c1_validation_credential failNet sampleState "getSubjectsForStudy"
      [("studyToken", "A")] (by decide)⟩

/-- Claim C2: after a successful authentication the session sequence is
exactly the server-provided value; N dispatcher calls later it is that value
plus N, and no dispatch changes it by any amount other than one. -/
theorem c2_sequence_tracking (authNet : AuthRequest → NetResult) (mac : Nat)
    (u p k b : String) (df pa : Bool) (j : Json) (n : Int) (t : String) (st : SessionState)
    (h1 : authNet (authRequest u p b (md5hex (toString mac ++ base_string ++ u))) = .ok j)
    (h2 : jsonGetItem j "sequence" = .ok (.num n))
    (h3 : jsonGetItem j "token" = .ok (.str t))
    (h4 : sessionInit authNet mac u p k b df pa = .ok st) :
    st.sequence = n ∧
    (∀ (net : Request → NetResult) (calls : List (String × List (String × String))),
      (iterCalls net st calls).sequence = n + calls.length) ∧
    (∀ (net : Request → NetResult) (s : SessionState) (action : String)
      (o : List (String × String)), (call net s action o).1.sequence = s.sequence + 1) := by
  have hst := sessionInit_ok authNet mac u p k b df pa j n t st h1 h2 h3 h4
  refine ⟨by rw [hst], ?_, ?_⟩
  · intro net calls
    rw [iterCalls_state net calls st, hst]
  · intro net s action o
    rw [call_state]

/-- Witness for C2 against a concrete accepting server. -/
theorem c2_sequence_tracking_witness :
    (authOkNet (authRequest "u" "p" "http://x/" (md5hex (toString 0 ++ base_string ++ "u")))
      = .ok authOkJson) ∧
    (jsonGetItem authOkJson "sequence" = .ok (.num 10)) ∧
    (jsonGetItem authOkJson "token" = .ok (.str "T")) ∧
    (sessionInit authOkNet 0 "u" "p" "K" "http://x/" false true = .ok sampleAuthState) ∧
    (sampleAuthState.sequence = 10 ∧
     (∀ (net : Request → NetResult) (calls : List (String × List (String × String))),
       (iterCalls net sampleAuthState calls).sequence = 10 + calls.length) ∧
     (∀ (net : Request → NetResult) (s : SessionState) (action : String)
       (o : List (String × String)), (call net s action o).1.sequence = s.sequence + 1)) :=
  ⟨rfl, rfl, rfl, rfl,
   c2_sequence_tracking authOkNet 0 "u" "p" "K" "http://x/" false true
     authOkJson 10 "T" sampleAuthState rfl rfl rfl rfl⟩

/-- Claim C3: a dispatcher call that fails after entry still leaves the
sequence exactly one greater than before the call; the increment is never
rolled back. -/
theorem c3_sequence_advances_on_error (net : Request → NetResult) (s : SessionState)
    (action : String) (o : List (String × String)) (e : PyErr)
    (h : (call net s action o).2.2 = .error e) :
    (call net s action o).1.sequence = s.sequence + 1 := by
  rw [call_state]

/-- Witness for C3 against a network that always fails. -/
theorem c3_sequence_advances_on_error_witness :
    ((call failNet sampleState "getStudies" []).2.2 = .error (.httpError 500)) ∧
    (call failNet sampleState "getStudies" []).1.sequence = sampleState.sequence + 1 :=
  ⟨rfl, c3_sequence_advances_on_error failNet sampleState "getStudies" []
     (.httpError 500) rfl⟩

/-- Counterexample to C4 as stated: with the caller option
`deviceID = "EVIL"`, the request body carries the caller value `"EVIL"`, not
the client-computed device identifier `"D"` — the caller wins the merge, not
the reserved keys. -/
theorem c4_counterexample_reserved_keys :
    dictLookup (call failNet sampleState "getStudies"
        [("deviceID", "EVIL")]).2.1.body "deviceID" = some "EVIL" ∧
    sampleState.deviceID = "D" ∧ ("EVIL" : String) ≠ "D" :=
  ⟨rfl, rfl, by decide⟩

/-- Claim C4 amended: the reserved keys are set first and the caller options
are merged on top, so for every caller-supplied key the request body carries
the caller value. -/
theorem c4_caller_options_take_precedence (net : Request → NetResult) (s : SessionState)
    (action : String) (o : List (String × String)) (k v : String)
    (hnd : (o.map Prod.fst).Nodup) (hk : dictLookup o k = some v) :
    dictLookup (call net s action o).2.1.body k = some v := by
  rw [call_req]
  exact dictLookup_dictUpdate_mem _ o k v hnd hk

/-- Witness for the amended C4. -/
theorem c4_caller_options_take_precedence_witness :
    ((([("deviceID", "EVIL")] : List (String × String)).map Prod.fst).Nodup) ∧
    (dictLookup [("deviceID", "EVIL")] "deviceID" = some "EVIL") ∧
    dictLookup (call failNet sampleState "getStudies"
        [("deviceID", "EVIL")]).2.1.body "deviceID" = some "EVIL" :=
  ⟨by simp, rfl,
   c4_caller_options_take_precedence failNet sampleState "getStudies"
     [("deviceID", "EVIL")] "deviceID" "EVIL" (by simp) rfl⟩

/-- Claim C5, on the specification example payload: with the dataframe
output enabled the measurements operation raises `AttributeError` instead of
building the claimed token-indexed table, because the loop extended a list
with the keys of the mapping and `iteritems` is then called on that list;
with the dataframe disabled the caller receives only the two keys, not the
field mappings.  The sequence still advanced by one for the single
dispatch. -/
theorem c5_measurement_reshape_bug :
    ((getMeasurementDataForAssay measurementsNet sampleStateDF ["assayA"]).2.2
      = .error .attributeError) ∧
    ((getMeasurementDataForAssay measurementsNet sampleStateDF ["assayA"]).1.sequence
      = sampleStateDF.sequence + 1) ∧
    ((getMeasurementDataForAssay measurementsNet sampleState ["assayA"]).2.2
      = .ok (.jsonList [.str "tok1", .str "tok2"])) :=
  ⟨rfl, rfl, rfl⟩

/-- Counterexample to C6 as stated: with pandas absent and the dataframe
requested, the failure happens at client construction — `__init__` raises
`ImportError` and no session object is produced, so the error is not
deferred to the reshape call. -/
theorem c6_counterexample_pandas_missing :
    sessionInit authOkNet 0 "u" "p" "K" "http://x/" true false = .error .importError := rfl

/-- Claim C6 amended: when the tabular backend is absent and tabular output
is requested, construction itself fails with `ImportError` right after a
successful authentication exchange; the reshape call is never reached. -/
theorem c6_import_error_at_construction (authNet : AuthRequest → NetResult) (mac : Nat)
    (u p k b : String) (j : Json) (n : Int) (t : String)
    (h1 : authNet (authRequest u p b (md5hex (toString mac ++ base_string ++ u))) = .ok j)
    (h2 : jsonGetItem j "sequence" = .ok (.num n))
    (h3 : jsonGetItem j "token" = .ok (.str t)) :
    sessionInit authNet mac u p k b true false = .error .importError := by
  simp [sessionInit, authenticate, h1, h2, h3]

/-- Witness for the amended C6. -/
theorem c6_import_error_at_construction_witness :
    (authOkNet (authRequest "u" "p" "http://x/" (md5hex (toString 0 ++ base_string ++ "u")))
      = .ok authOkJson) ∧
    (jsonGetItem authOkJson "sequence" = .ok (.num 10)) ∧
    (jsonGetItem authOkJson "token" = .ok (.str "T")) ∧
    sessionInit authOkNet 0 "u" "p" "K" "http://x/" true false = .error .importError :=
  ⟨rfl, rfl, rfl,
   c6_import_error_at_construction authOkNet 0 "u" "p" "K" "http://x/"
     authOkJson 10 "T" rfl rfl rfl⟩

/-- Claim C7: a two-token `getSubjectsForStudy` yields exactly the
concatenation, in input order, of the one-token runs, with one dispatch per
token and no deduplication. -/
theorem c7_merge_concatenation (net : Request → NetResult) (s : SessionState)
    (a b : String) (s1 s2 : SessionState) (tr1 tr2 : List Request) (xs ys : List Json)
    (h1 : getSubjectsForStudy net s [a] = (s1, tr1, .ok (.jsonList xs)))
    (h2 : getSubjectsForStudy net s1 [b] = (s2, tr2, .ok (.jsonList ys))) :
    getSubjectsForStudy net s [a, b] = (s2, tr1 ++ tr2, .ok (.jsonList (xs ++ ys))) ∧
    tr1.length = 1 ∧ tr2.length = 1 := by
  obtain ⟨hdf1, hL1, hlen1⟩ := getSubjectsForStudy_single_ok net s a s1 tr1 xs h1
  obtain ⟨hdf2, hL2, hlen2⟩ := getSubjectsForStudy_single_ok net s1 b s2 tr2 ys h2
  have happ := fetchLoop_append net "getSubjectsForStudy" "studyToken" "subjects"
    [a] [b] s s1 tr1 xs hL1
  rw [hL2] at happ
  simp only [List.cons_append, List.nil_append, withAcc] at happ
  have hs2 : s2.dataframe = false := by
    have hst := fetchLoop_state net "getSubjectsForStudy" "studyToken" "subjects" [b] s1 []
    rw [hL2] at hst
    dsimp only at hst
    rw [hst]
    exact hdf2
  refine ⟨?_, hlen1, hlen2⟩
  simp [getSubjectsForStudy, happ, hs2]

/-- Witness for C7, with the same token twice: the merge duplicates the
record rather than deduplicating. -/
theorem c7_merge_concatenation_witness :
    (getSubjectsForStudy subjectsNet sampleState ["A"]
      = ({ sampleState with sequence := 11 },
         [(callS sampleState "getSubjectsForStudy" [("studyToken", "A")]).2],
         .ok (.jsonList [subjRow]))) ∧
    (getSubjectsForStudy subjectsNet { sampleState with sequence := 11 } ["A"]
      = ({ sampleState with sequence := 12 },
         [(callS { sampleState with sequence := 11 } "getSubjectsForStudy"
             [("studyToken", "A")]).2],
         .ok (.jsonList [subjRow]))) ∧
    (getSubjectsForStudy subjectsNet sampleState ["A", "A"]
      = ({ sampleState with sequence := 12 },
         [(callS sampleState "getSubjectsForStudy" [("studyToken", "A")]).2]
           ++ [(callS { sampleState with sequence := 11 } "getSubjectsForStudy"
                 [("studyToken", "A")]).2],
         .ok (.jsonList ([subjRow] ++ [subjRow]))) ∧
     [(callS sampleState "getSubjectsForStudy" [("studyToken", "A")]).2].length = 1 ∧
     [(callS { sampleState with sequence := 11 } "getSubjectsForStudy"
         [("studyToken", "A")]).2].length = 1) :=
  ⟨rfl, rfl,
   c7_merge_concatenation subjectsNet sampleState "A" "A"
     { sampleState with sequence := 11 } { sampleState with sequence := 12 }
     [(callS sampleState "getSubjectsForStudy" [("studyToken", "A")]).2]
     [(callS { sampleState with sequence := 11 } "getSubjectsForStudy"
         [("studyToken", "A")]).2]
     [subjRow] [subjRow] rfl rfl⟩

/-- Claim C8: the device identifier of every successfully constructed
session is the hexadecimal MD5 digest of the MAC-derived string, the fixed
application string, and the username; for a fixed host it depends only on
the username, and no dispatcher call ever changes it. -/
theorem c8_device_id (authNet : AuthRequest → NetResult) (mac : Nat)
    (u p k b : String) (df pa : Bool) (st : SessionState)
    (h : sessionInit authNet mac u p k b df pa = .ok st) :
    st.deviceID = md5hex (toString mac ++ base_string ++ u) ∧
    (∀ (authNet2 : AuthRequest → NetResult) (p2 k2 b2 : String) (df2 pa2 : Bool)
      (st2 : SessionState), sessionInit authNet2 mac u p2 k2 b2 df2 pa2 = .ok st2 →
      st2.deviceID = st.deviceID) ∧
    (∀ (net : Request → NetResult) (cs : List (String × List (String × String))),
      (iterCalls net st cs).deviceID = st.deviceID) := by
  have hd := sessionInit_ok_deviceID authNet mac u p k b df pa st h
  refine ⟨hd, ?_, ?_⟩
  · intro authNet2 p2 k2 b2 df2 pa2 st2 h2
    rw [sessionInit_ok_deviceID authNet2 mac u p2 k2 b2 df2 pa2 st2 h2, hd]
  · intro net cs
    rw [iterCalls_state net cs st]

/-- Witness for C8 against a concrete accepting server. -/
theorem c8_device_id_witness :
    (sessionInit authOkNet 0 "u" "p" "K" "http://x/" false true = .ok sampleAuthState) ∧
    (sampleAuthState.deviceID = md5hex (toString 0 ++ base_string ++ "u") ∧
     (∀ (authNet2 : AuthRequest → NetResult) (p2 k2 b2 : String) (df2 pa2 : Bool)
       (st2 : SessionState), sessionInit authNet2 0 "u" p2 k2 b2 df2 pa2 = .ok st2 →
       st2.deviceID = sampleAuthState.deviceID) ∧
     (∀ (net : Request → NetResult) (cs : List (String × List (String × String))),
       (iterCalls net sampleAuthState cs).deviceID = sampleAuthState.deviceID)) :=
  ⟨rfl, c8_device_id authOkNet 0 "u" "p" "K" "http://x/" false true sampleAuthState rfl⟩

/-- Claim C9: the dispatcher never writes into the caller options mapping —
the caller-visible mapping after a call is the one passed in, and reusing it
for a further call builds the same request as passing the original. -/
theorem c9_options_not_mutated (net net2 : Request → NetResult) (s : SessionState)
    (action action2 : String) (o : List (String × String)) :
    (callTracked net s action o).2.1 = o ∧
    (callTracked net2 (callTracked net s action o).1 action2
        (callTracked net s action o).2.1).2.2.1
      = (call net2 (call net s action o).1 action2 o).2.1 :=
  ⟨rfl, rfl⟩

/-- Claim C10: with no tokens and the dataframe output disabled, each
per-token operation issues no request, returns the state it was given, and
yields the empty list. -/
theorem c10_empty_tokens_noop (net : Request → NetResult) (s : SessionState)
    (h : s.dataframe = false) :
    getSubjectsForStudy net s [] = (s, [], .ok (.jsonList [])) ∧
    getAssaysForStudy net s [] = (s, [], .ok (.jsonList [])) ∧
    getSamplesForAssay net s [] = (s, [], .ok (.jsonList [])) ∧
    getMeasurementDataForAssay net s [] = (s, [], .ok (.jsonList [])) := by
  refine ⟨?_, ?_, ?_, ?_⟩ <;>
    simp [getSubjectsForStudy, getAssaysForStudy, getSamplesForAssay,
      getMeasurementDataForAssay, fetchLoop, h, to_dataframe]

/-- Witness for C10 at a concrete state. -/
theorem c10_empty_tokens_noop_witness :
    (sampleState.dataframe = false) ∧
    (getSubjectsForStudy failNet sampleState [] = (sampleState, [], .ok (.jsonList [])) ∧
     getAssaysForStudy failNet sampleState [] = (sampleState, [], .ok (.jsonList [])) ∧
     getSamplesForAssay failNet sampleState [] = (sampleState, [], .ok (.jsonList [])) ∧
     getMeasurementDataForAssay failNet sampleState [] = (sampleState, [], .ok (.jsonList []))) :=
  ⟨rfl, c10_empty_tokens_noop failNet sampleState rfl⟩
